import Mathlib

/-
  Verification of the csp-utils CSP library (csp/uri.py, csp/sourceexpression.py,
  csp/directive.py, csp/policy.py) against its natural-language specification.

  The Python code is shallowly embedded: each class becomes a structure or an
  inductive type, Python `None`/value fields become `Option`, Python `frozenset`
  whitelists and directive sets become `Finset` (structural equality of Python
  objects is exactly structural equality of the embedded values), and fallible
  operations (places where the Python code can raise) return `Option` with
  `none` marking the exception.
-/

namespace CspUtils

/-! ### Python string primitives used by the sources -/

/-- The whitespace characters removed by Python `str.strip()`. -/
def pyIsSpace (c : Char) : Bool :=
  c = ' ' || c = '\t' || c = '\n' || c = '\x0d' || c = '\x0b' || c = '\x0c'

/-- Python `str.strip()`: remove leading and trailing whitespace. -/
def pyStrip (s : String) : String :=
  ⟨(s.data.dropWhile pyIsSpace).reverse.dropWhile pyIsSpace |>.reverse⟩

/-- Python `str.lower()` (ASCII case folding, which is all the sources use). -/
def pyLower (s : String) : String :=
  ⟨s.data.map Char.toLower⟩

/-- Helper for Python `str.partition(sep)` with a single-character separator:
split the character list at the first occurrence of `c`. -/
def breakAtChar (c : Char) : List Char → Option (List Char × List Char)
  | [] => none
  | x :: xs =>
    if x = c then some ([], xs)
    else (breakAtChar c xs).map (fun p => (x :: p.1, p.2))

/-- Python `str.partition(" ")`-style partition at the first occurrence of `c`:
returns (before, separator, after); if `c` does not occur, (s, "", ""). -/
def pyPartition (s : String) (c : Char) : String × String × String :=
  match breakAtChar c s.data with
  | none => (s, "", "")
  | some (a, b) => (⟨a⟩, ⟨[c]⟩, ⟨b⟩)

/-- Python `str.split()` with no argument: split on runs of whitespace,
discarding empty pieces. -/
def pySplitWS (s : String) : List String :=
  ((s.data.splitOnP pyIsSpace).filter (· ≠ [])).map (fun l => (⟨l⟩ : String))

/-- Python slice `s[-k:]` for `k > 0`: the last `k` characters
(the whole string when `k ≥ len(s)`). -/
def pyTakeLast (s : String) (k : Nat) : String :=
  ⟨s.data.drop (s.data.length - k)⟩

/-- Python slice `s[:k]`: the first `k` characters. -/
def pyTakeFirst (s : String) (k : Nat) : String :=
  ⟨s.data.take k⟩

/-- Python `int(s)` on a decimal digit string (every call site guarantees the
string is non-empty and all digits, by regex or by an explicit check). -/
def pyIntOfDigits (s : String) : Nat :=
  s.data.foldl (fun acc c => acc * 10 + (c.toNat - '0'.toNat)) 0

/-- Python `s.endswith(suffix)` / the slice comparisons `s[-1:] == ":"` and
`s[-3:] == "://"` used by `URIParser.parse`. -/
def pyEndsWith (s suffix : String) : Bool :=
  suffix.data.isSuffixOf s.data

/-- Python slice `s[:-n]`. -/
def pyDropLast (s : String) (n : Nat) : String :=
  ⟨s.data.take (s.data.length - n)⟩

/-! ### The URI data model (csp/uri.py)

A port value: Python stores ports dynamically as an `int`, the string `'*'`,
or a decimal digit string (the latter only out of `SourceExpressionURIParser`,
which is configured with `_convertPortToInt = False`). -/

inductive PortVal where
  | num (n : Nat)
  | star
  | numStr (s : String)
deriving DecidableEq, Repr

/-- Embedding of `URI.__init__` plus the `_isRegularURI` flag.  Python guarantees `host` is a
string for every constructed URI; `Option` also covers the `None` placeholder
the matching code guards against.  The constructor normalisation
(empty string ⇒ None for scheme/path/query) lives in `mkURI`. -/
structure URI where
  scheme : Option String
  host : Option String
  port : Option PortVal
  path : Option String
  query : Option String
  isRegular : Bool
deriving DecidableEq, Repr

/-- Embedding of `URI._makeEmptyNone`. -/
def makeEmptyNone (s : Option String) : Option String :=
  match s with
  | some "" => none
  | x => x

/-- Embedding of `URI.__init__`: scheme/path/query have empty strings normalised to absent;
host and port are stored as passed; the result is a regular URI. -/
def mkURI (scheme : Option String) (host : Option String) (port : Option PortVal)
    (path : Option String) (query : Option String) : URI :=
  ⟨makeEmptyNone scheme, host, port, makeEmptyNone path, makeEmptyNone query, true⟩

/-- Embedding of `URI.INVALID()`. -/
def URI.INVALID : URI := ⟨none, some "[invalid]", none, none, none, false⟩

/-- Embedding of `URI.EMPTY()`. -/
def URI.EMPTY : URI := ⟨none, some "[empty]", none, none, none, false⟩

/-- Embedding of `URI.INLINE()`. -/
def URI.INLINE : URI := ⟨none, some "[inline]", none, none, none, false⟩

/-- Embedding of `URI.EVAL()`. -/
def URI.EVAL : URI := ⟨none, some "[eval]", none, none, none, false⟩

/-! ### Default configuration tables (csp/defaults.py) -/

/-- Embedding of `defaults.schemePortMappings` (a Python dict whose values may be `None`). -/
def defaultSchemePortMappings : List (String × Option Nat) :=
  [("http", some 80), ("https", some 443), ("data", none), ("chrome-extension", none),
   ("safari-extension", none), ("chromenull", none), ("chromeinvoke", none),
   ("chromeinvokeimmediate", none), ("mx", none), ("moz-icon", none),
   ("about", none), ("view-source", none), ("se-extension", none), ("ws", none)]

/-- Embedding of `defaults.portSchemeMappings`. -/
def defaultPortSchemeMappings : List (Nat × String) :=
  [(80, "http"), (443, "https"), (8080, "http")]

/-- Embedding of `defaults.schemesWithNoDoubleSlash`. -/
def schemesWithNoDoubleSlash : List String := ["data", "about", "view-source"]

/-- Embedding of `defaults.supportedSchemes` (the keys of `schemePortMappings`). -/
def supportedSchemes : List String := defaultSchemePortMappings.map Prod.fst

/-- Embedding of `defaults.directiveTypeTranslations`. -/
def directiveTypeTranslations : List (String × String) := [("xhr-src", "connect-src")]

/-- Embedding of `defaults.allowedDirectiveTypes`. -/
def allowedDirectiveTypes : List String :=
  ["base-uri", "child-src", "connect-src", "default-src", "font-src", "form-action",
   "frame-ancestors", "frame-src", "img-src", "media-src", "object-src",
   "script-src", "style-src"]

/-- Embedding of `defaults.defaultSrcReplacementDirectiveTypes`. -/
def defaultSrcReplacementDirectiveTypes : List String :=
  ["child-src", "connect-src", "font-src", "img-src", "media-src",
   "object-src", "script-src", "style-src"]

/-! ### Source expressions (csp/sourceexpression.py)

Python represents source expressions as three classes whose `__eq__` first
checks the exact class; an inductive type mirrors this.  `keyword t` embeds the
base-class instances (`'unsafe-inline'`, `'unsafe-eval'`, `'[invalid]'`, with
`_type = t`), `selfE` embeds `SelfSourceExpression`, and `uriE` embeds
`URISourceExpression` with its four fields. -/

inductive SrcExpr where
  | keyword (t : String)
  | selfE
  | uriE (scheme : Option String) (host : Option String)
         (port : Option PortVal) (path : Option String)
deriving DecidableEq, Repr

/-- Embedding of `SourceExpression.UNSAFE_INLINE()`. -/
def SrcExpr.UNSAFE_INLINE : SrcExpr := .keyword "unsafe-inline"

/-- Embedding of `SourceExpression.UNSAFE_EVAL()`. -/
def SrcExpr.UNSAFE_EVAL : SrcExpr := .keyword "unsafe-eval"

/-- Embedding of `SourceExpression.INVALID()`. -/
def SrcExpr.INVALID : SrcExpr := .keyword "[invalid]"

/-- Embedding of `URISourceExpression.__init__`: scheme and host have empty strings
normalised to absent and are lower-cased; path has empty normalised to
absent; the port is stored as passed. -/
def mkURISourceExpression (scheme host : Option String) (port : Option PortVal)
    (path : Option String) : SrcExpr :=
  .uriE ((makeEmptyNone scheme).map pyLower) ((makeEmptyNone host).map pyLower)
        port (makeEmptyNone path)

/-- Embedding of `SelfSourceExpression._getPort(scheme, schemePortMappings)` combined with
the `myPort`/`otherPort` resolution in `SelfSourceExpression.matches`: an
explicit port wins; otherwise the scheme (lower-cased) is looked up in the
table, whose value may itself be absent. -/
def selfResolvePort (u : URI) (m : List (String × Option Nat)) : Option PortVal :=
  match u.port with
  | some p => some p
  | none =>
    match u.scheme with
    | some s => ((List.lookup (pyLower s) m).join).map PortVal.num
    | none => none

/-- Embedding of `SelfSourceExpression.matches(resourceURI, protectedDocumentURI,
schemePortMappings)`, line for line: non-regular resource ⇒ False; missing
scheme on either URI ⇒ False; unresolvable port on either URI ⇒ False; else
compare scheme, host and resolved port for (exact) equality. -/
def selfSourceMatches (res prot : URI) (m : List (String × Option Nat)) : Bool :=
  if ¬ res.isRegular = true then false
  else if prot.scheme = none ∨ res.scheme = none then false
  else
    match selfResolvePort prot m with
    | none => false
    | some myPort =>
      match selfResolvePort res m with
      | none => false
      | some otherPort =>
        decide (prot.scheme = res.scheme ∧ prot.host = res.host ∧ myPort = otherPort)

/-- The integer value of a port as computed by Python `int(port)` inside
`URISourceExpression.matches`; `none` where Python would raise (`int(None)`,
`int('*')`) — those raising paths are unreachable for expressions produced by
the parsers (see comment in `uriSourceMatches`). -/
def portAsInt : Option PortVal → Option Nat
  | some (.num n) => some n
  | some (.numStr s) => some (pyIntOfDigits s)
  | _ => none

/-- Embedding of `URISourceExpression.matches(resourceURI, protectedDocumentURI,
schemePortMappings)`, with arguments `xs`/`xh`/`xp`/`xpa` the expression's
scheme/host/port/path fields.  Two places where dynamic Python could raise are
totalised: `protectedDocumentURI.getScheme().lower()` reads the scheme as ""
when absent (Python would raise AttributeError on None), and a numeric
expression port compared against an unresolvable resource port counts as a
mismatch (Python `int(None)` would raise). -/
def uriSourceMatches (xs xh : Option String) (xp : Option PortVal) (xpa : Option String)
    (res prot : URI) (m : List (String × Option Nat)) : Bool :=
  if ¬ res.isRegular = true then false
  -- only *
  else if xs = none ∧ xh = some "*" ∧ xp = none ∧ xpa = none then true
  else
    let uriScheme : Option String := res.scheme.map pyLower
    -- only scheme:
    if xs ≠ none ∧ xs = uriScheme ∧ xh = none ∧ xp = none ∧ xpa = none then true
    else
      match res.host with
      | none => false
      | some uriHost0 =>
        let uriHost := pyLower uriHost0
        let uriPort : Option PortVal :=
          match res.port with
          | some p => some p
          | none =>
            match uriScheme with
            | some s =>
              match List.lookup s m with
              | some v => v.map PortVal.num
              | none => none
            | none => none
        let uriPath : String :=
          match res.path with
          | none => "/"
          | some "" => "/"
          | some p => p
        if xs ≠ none ∧ xs ≠ uriScheme then false
        else
          let protScheme := pyLower ((prot.scheme).getD "")
          if xs = none ∧ protScheme = "http"
             ∧ uriScheme ≠ some "http" ∧ uriScheme ≠ some "https" then false
          else if xs = none ∧ protScheme ≠ "http" ∧ some protScheme ≠ uriScheme then false
          -- wildcard host: self._host[0] == '*', len > 1,
          -- self._host[1:] != uriHost[-len(self._host)+1:]
          else if (match xh with
                   | some h =>
                     match h.data with
                     | '*' :: c :: rest =>
                       decide (¬ ((⟨c :: rest⟩ : String) = pyTakeLast uriHost (c :: rest).length))
                     | _ => false
                   | none => false) then false
          -- literal host: self._host[0] != '*' and self._host != uriHost
          else if (match xh with
                   | some h => decide (h.data.head? ≠ some '*' ∧ h ≠ uriHost)
                   | none => false) then false
          -- implicit default port required when the expression has no port
          else if xp = none ∧ (∃ s, uriScheme = some s ∧
                    ∃ v, List.lookup s m = some v ∧ uriPort ≠ v.map PortVal.num) then false
          -- explicit numeric port must agree
          else if (match xp with
                   | some (.num n) => decide (portAsInt uriPort ≠ some n)
                   | some (.numStr s) => decide (portAsInt uriPort ≠ some (pyIntOfDigits s))
                   | _ => false) then false
          -- path: directory-style expression path must be a prefix of the
          -- resource path, file-style path must be equal
          else if (match xpa with
                   | some p =>
                     decide (p.data.getLast? = some '/' ∧ p ≠ pyTakeFirst uriPath p.data.length)
                   | none => false) then false
          else if (match xpa with
                   | some p => decide (p.data.getLast? ≠ some '/' ∧ p ≠ uriPath)
                   | none => false) then false
          else true

/-- Embedding of `SourceExpression.matches` with its subclass overrides, dispatched on the
variant exactly as Python dispatches on the class. -/
def srcMatches (e : SrcExpr) (res prot : URI) (m : List (String × Option Nat)) : Bool :=
  match e with
  | .keyword t =>
    decide ((t = "unsafe-eval" ∧ res = URI.EVAL) ∨ (t = "unsafe-inline" ∧ res = URI.INLINE))
  | .selfE => selfSourceMatches res prot m
  | .uriE xs xh xp xpa => uriSourceMatches xs xh xp xpa res prot m

/-! ### Directives (csp/directive.py) -/

/-- Embedding of `Directive`: a directive type string, a `frozenset` whitelist, and the
`_isRegularDirective` flag.  Python equality compares exactly these three
fields, so structure equality is Python `==`. -/
structure Directive where
  dtype : String
  whitelist : Finset SrcExpr
  isRegular : Bool
deriving DecidableEq

/-- Embedding of `Directive.__init__`: store the type, drop `SourceExpression.INVALID()`
from the whitelist (the `frozenset` already makes duplicates collapse), and
mark the directive regular. -/
def mkDirective (t : String) (wl : Finset SrcExpr) : Directive :=
  ⟨t, wl.filter (fun e => e ≠ SrcExpr.INVALID), true⟩

/-- Embedding of `Directive.INVALID()`. -/
def Directive.INVALID : Directive := ⟨"[invalid]", ∅, false⟩

/-- Embedding of `Directive.INLINE_STYLE_BASE_RESTRICTION()`. -/
def Directive.INLINE_STYLE_BASE_RESTRICTION : Directive :=
  ⟨"[inline style base restriction]", ∅, false⟩

/-- Embedding of `Directive.INLINE_SCRIPT_BASE_RESTRICTION()`. -/
def Directive.INLINE_SCRIPT_BASE_RESTRICTION : Directive :=
  ⟨"[inline script base restriction]", ∅, false⟩

/-- Embedding of `Directive.EVAL_SCRIPT_BASE_RESTRICTION()`. -/
def Directive.EVAL_SCRIPT_BASE_RESTRICTION : Directive :=
  ⟨"[eval script base restriction]", ∅, false⟩

/-- Embedding of `Directive.getType()`: the three special report sentinels answer with the
directive type they stand for; every other directive answers its own type. -/
def Directive.getType (d : Directive) : String :=
  if d = Directive.INLINE_STYLE_BASE_RESTRICTION then "style-src"
  else if d = Directive.INLINE_SCRIPT_BASE_RESTRICTION then "script-src"
  else if d = Directive.EVAL_SCRIPT_BASE_RESTRICTION then "script-src"
  else d.dtype

/-- Embedding of `Directive.combinedDirective(other)`: both operands must be regular and of
the same type; the result keeps the type and unites the whitelists. -/
def combinedDirective (d1 d2 : Directive) : Directive :=
  if ¬ d1.isRegular = true ∨ ¬ d2.isRegular = true then Directive.INVALID
  else if d2.getType ≠ d1.getType then Directive.INVALID
  else mkDirective d1.getType (d1.whitelist ∪ d2.whitelist)

/-- Embedding of `Directive.matches(resourceURI, protectedDocumentURI, schemePortMappings)`:
false for non-regular directives, else true iff some whitelist member matches
(the Python loop over the `frozenset` is a plain disjunction). -/
def directiveMatches (d : Directive) (res prot : URI) (m : List (String × Option Nat)) : Bool :=
  if ¬ d.isRegular = true then false
  else decide (∃ e ∈ d.whitelist, srcMatches e res prot m = true)

/-- Embedding of `Directive.generateDirective(reportType, blockedURI)`: the guard clauses of
the source in order, then one generated directive per report type. -/
def generateDirective (d : Directive) (reportType : String) (blockedURI : URI) : Directive :=
  if d = Directive.INVALID
     ∨ (d = Directive.EVAL_SCRIPT_BASE_RESTRICTION ∧ reportType ≠ "eval")
     ∨ (d = Directive.INLINE_SCRIPT_BASE_RESTRICTION ∧ reportType ≠ "inline")
     ∨ (d = Directive.INLINE_STYLE_BASE_RESTRICTION ∧ reportType ≠ "inline")
     ∨ d.getType = "default-src"
     ∨ reportType ∉ ["regular", "eval", "inline"]
     ∨ blockedURI = URI.INVALID
     ∨ (reportType = "regular" ∧ ¬ blockedURI.isRegular = true)
     ∨ (reportType = "eval" ∧ d.getType ≠ "script-src")
     ∨ (reportType = "inline" ∧ d.getType ∉ ["script-src", "style-src"])
  then Directive.INVALID
  else if reportType = "regular" then
    mkDirective d.getType
      {mkURISourceExpression blockedURI.scheme blockedURI.host blockedURI.port blockedURI.path}
  else if reportType = "eval" then
    mkDirective d.getType {SrcExpr.UNSAFE_EVAL}
  else if reportType = "inline" then
    mkDirective d.getType {SrcExpr.UNSAFE_INLINE}
  else Directive.INVALID

/-! ### Policies (csp/policy.py) -/

/-- Embedding of `Policy`: a `frozenset` of directives plus the `_isInvalid` flag; Python
`Policy.__eq__` compares exactly these two fields. -/
structure Policy where
  directives : Finset Directive
  isInvalid : Bool
deriving DecidableEq

/-- Embedding of `Policy.INVALID()`. -/
def Policy.INVALID : Policy := ⟨∅, true⟩

/-- Embedding of `Policy.__init__` from an iterable given in an explicit order: keep the
regular directives, and collapse duplicate types (Python builds a dict keyed by
`getType`, so the last directive of each type in iteration order survives). -/
def mkPolicy (l : List Directive) : Policy :=
  ⟨((l.filter (fun d => d.isRegular = true)).foldl
      (fun acc d => (acc.filter (fun d2 => d2.getType ≠ d.getType)).concat d) []).toFinset,
   false⟩

/-- Embedding of `Policy._defaultSrcDirectiveIfNotSpecified`: the implicit
`default-src *` directive. -/
def defaultSrcDirectiveIfNotSpecified : Directive :=
  mkDirective "default-src" {mkURISourceExpression none (some "*") none none}

/-- The per-policy well-formedness the Python `Policy.__init__` establishes
(and `Directive.__init__` for the whitelists): directives in a policy are
regular, their types are pairwise distinct, and no whitelist contains the
invalid source expression.  Quantified theorems about raw `Policy` values
assume it where the source relies on it. -/
def PolicyWF (p : Policy) : Prop :=
  (∀ d ∈ p.directives, d.isRegular = true)
  ∧ (∀ d1 ∈ p.directives, ∀ d2 ∈ p.directives, d1.dtype = d2.dtype → d1 = d2)
  ∧ (∀ d ∈ p.directives, SrcExpr.INVALID ∉ d.whitelist)

instance (p : Policy) : Decidable (PolicyWF p) := by
  unfold PolicyWF; infer_instance

/-- Embedding of `Policy.combinedPolicy(otherPolicy)`.  The source iterates a dict keyed by
directive type built from each `frozenset` of directives; under the
constructor invariant (one directive per type, see `PolicyWF`) that dict is
exactly the directive set, so the per-type loop is rendered set-wise: types
present on one side only pass through, types present on both sides contribute
the pairwise `combinedDirective`, and any invalid combination invalidates the
whole result.  The final `Policy(...)` constructor call keeps the regular
directives (its duplicate-type collapse is a no-op here because combined
types stay pairwise distinct under the invariant). -/
def combinedPolicy (p q : Policy) : Policy :=
  if p = Policy.INVALID ∨ q = Policy.INVALID then Policy.INVALID
  else
    let myTypes := p.directives.image Directive.getType
    let otherTypes := q.directives.image Directive.getType
    let allTypes := myTypes ∪ otherTypes
    if "default-src" ∈ allTypes ∧
       ((("default-src" ∉ myTypes) ∧ 0 < myTypes.card)
        ∨ (("default-src" ∈ myTypes) ∧ 1 < myTypes.card)
        ∨ (("default-src" ∉ otherTypes) ∧ 0 < otherTypes.card)
        ∨ (("default-src" ∈ otherTypes) ∧ 1 < otherTypes.card)) then Policy.INVALID
    else
      let shared := (p.directives ×ˢ q.directives).filter
        (fun x => x.1.getType = x.2.getType)
      if decide (∃ x ∈ shared, combinedDirective x.1 x.2 = Directive.INVALID) then
        Policy.INVALID
      else
        ⟨((p.directives.filter (fun d => d.getType ∉ otherTypes))
          ∪ (q.directives.filter (fun d => d.getType ∉ myTypes))
          ∪ shared.image (fun x => combinedDirective x.1 x.2)).filter
            (fun d => d.isRegular = true), false⟩

/-- Embedding of `Policy.matches(resourceURI, resourceType, protectedDocumentURI,
schemePortMappings, defaultSrcTypes)`.  The source loops over the directive
`frozenset` and returns the result of the first directive whose type equals
the lower-cased resource type; under the one-directive-per-type invariant this
is the existential rendering used here (and likewise for the `default-src`
lookup). -/
def policyMatches (p : Policy) (res : URI) (resourceType : String) (prot : URI)
    (m : List (String × Option Nat)) (defaultSrcTypes : List String) : Bool :=
  if p = Policy.INVALID then false
  else
    let rt := pyLower resourceType
    if decide (∃ d ∈ p.directives, d.getType = rt) then
      decide (∃ d ∈ p.directives, d.getType = rt ∧ directiveMatches d res prot m = true)
    else if rt ∉ defaultSrcTypes then false
    else if decide (∃ d ∈ p.directives, d.getType = "default-src") then
      decide (∃ d ∈ p.directives, d.getType = "default-src"
              ∧ directiveMatches d res prot m = true)
    else directiveMatches defaultSrcDirectiveIfNotSpecified res prot m

/-! ### The URI string parser (csp/uri.py: URIParser)

`URIParser.parse` delegates the generic splitting to Python 2.7's
`urlparse.urlparse`; that external library function is modelled below from its
documented behaviour (scheme split at the first colon with the scheme-character
and all-digits-rest checks, authority after `//` up to `/?#`, fragment split
before query split, ValueError on unbalanced IPv6 brackets).  Path-parameter
(`;`) splitting of `urlparse` is not modelled; no claim exercises it.
Throughout the parser embedding, `none` marks a raised Python exception. -/

/-- A character allowed in a URL scheme by `urlparse` (letters, digits,
`+`, `-`, `.`). -/
def isSchemeChar (c : Char) : Bool :=
  c.isAlpha || c.isDigit || c = '+' || c = '-' || c = '.'

/-- Model of Python 2.7 `urlparse.urlparse(url, allow_fragments=True)`
restricted to the fields the sources read: returns
(scheme, netloc, path, query), the scheme lower-cased; `none` models the
ValueError raised on a netloc containing `[` without `]` or vice versa. -/
def urlsplitModel (url : String) : Option (String × String × String × String) :=
  let schemeRest : String × List Char :=
    match breakAtChar ':' url.data with
    | some (before, after) =>
      if before ≠ [] then
        if (⟨before⟩ : String) = "http" then ("http", after)
        else if before.all isSchemeChar then
          -- "make sure url is not actually a port number"
          if after = [] ∨ ¬ after.all Char.isDigit then (pyLower ⟨before⟩, after)
          else ("", url.data)
        else ("", url.data)
      else ("", url.data)
    | none => ("", url.data)
  let scheme := schemeRest.1
  let rest := schemeRest.2
  let netlocRest : Option (List Char × List Char) :=
    match rest with
    | '/' :: '/' :: r =>
      let nl := r.takeWhile (fun c => ¬ (c = '/' ∨ c = '?' ∨ c = '#'))
      if ('[' ∈ nl) ≠ (']' ∈ nl) then none
      else some (nl, r.drop nl.length)
    | r => some ([], r)
  match netlocRest with
  | none => none
  | some (netloc, rest2) =>
    let beforeFrag := rest2.takeWhile (fun c => c ≠ '#')
    let pathQuery : List Char × List Char :=
      match breakAtChar '?' beforeFrag with
      | none => (beforeFrag, [])
      | some (a, b) => (a, b)
    some (scheme, ⟨netloc⟩, ⟨pathQuery.1⟩, ⟨pathQuery.2⟩)

/-- A character of the host group in both netloc regexes:
`[A-Za-z0-9._-]`. -/
def isHostChar (c : Char) : Bool :=
  c.isAlpha || c.isDigit || c = '.' || c = '_' || c = '-'

/-- A character of the user/password groups of `URIParser.netlocRE`. -/
def isUserChar (c : Char) : Bool :=
  c.isAlpha || c.isDigit ||
  (['`', '~', '!', '#', '$', '%', '^', '&', '*', '(', ')', '_', '+', '=',
    '\x7b', '\x7d', '[', ']', '\\', '|', ';', '"', '<', '>', ',', '.', '/', '?',
    '-'].contains c)

/-- Embedding of `URIParser.netlocRE`: optional `user(:password)?@` (discarded), then a
host of host-characters, then an optional `:port` of digits.  Returns the
host and the optional port digit string, or `none` when the regex does not
match. -/
def parseNetlocStd (s : String) : Option (String × Option String) :=
  let hostPort : Option (List Char) :=
    match breakAtChar '@' s.data with
    | none => some s.data
    | some (ui, rest) =>
      match breakAtChar ':' ui with
      | none => if ui ≠ [] ∧ ui.all isUserChar then some rest else none
      | some (u, pw) =>
        if u ≠ [] ∧ u.all isUserChar ∧ pw ≠ [] ∧ pw.all isUserChar then some rest
        else none
  match hostPort with
  | none => none
  | some hp =>
    match breakAtChar ':' hp with
    | none => if hp ≠ [] ∧ hp.all isHostChar then some (⟨hp⟩, none) else none
    | some (h, p) =>
      if h ≠ [] ∧ h.all isHostChar ∧ p ≠ [] ∧ p.all Char.isDigit then
        some (⟨h⟩, some ⟨p⟩)
      else none

/-- The host alternative of `SourceExpressionURIParser.netlocRE`:
`*`, or an optional `*.` followed by one or more host characters. -/
def validSrcExprHost (l : List Char) : Bool :=
  if l = ['*'] then true
  else
    match l with
    | '*' :: '.' :: rest => rest ≠ [] && rest.all isHostChar
    | _ => decide (l ≠ []) && l.all isHostChar

/-- Embedding of `SourceExpressionURIParser.netlocRE`: wildcard-capable host, optional
port that is `*` or digits, no user/password. -/
def parseNetlocSrcExpr (s : String) : Option (String × Option String) :=
  match breakAtChar ':' s.data with
  | none => if validSrcExprHost s.data then some (⟨s.data⟩, none) else none
  | some (h, p) =>
    if validSrcExprHost h ∧ (p = ['*'] ∨ (p ≠ [] ∧ p.all Char.isDigit)) then
      some (⟨h⟩, some ⟨p⟩)
    else none

/-- Hexadecimal digit test used by `urllib.unquote`'s `%XX` table. -/
def isHexChar (c : Char) : Bool :=
  c.isDigit || ('a' ≤ c ∧ c ≤ 'f') || ('A' ≤ c ∧ c ≤ 'F')

/-- Value of a hexadecimal digit. -/
def hexVal (c : Char) : Nat :=
  if c.isDigit then c.toNat - '0'.toNat
  else if 'a' ≤ c ∧ c ≤ 'f' then c.toNat - 'a'.toNat + 10
  else if 'A' ≤ c ∧ c ≤ 'F' then c.toNat - 'A'.toNat + 10
  else 0

/-- Embedding of `urllib.unquote` on a byte string: each `%` followed by two hex digits
becomes the corresponding byte; any other `%` stays literal. -/
def pyUnquoteBytes : List Char → List Nat
  | [] => []
  | '%' :: c1 :: c2 :: rest =>
    if isHexChar c1 ∧ isHexChar c2 then
      (hexVal c1 * 16 + hexVal c2) :: pyUnquoteBytes rest
    else '%'.toNat :: pyUnquoteBytes (c1 :: c2 :: rest)
  | c :: rest => c.toNat :: pyUnquoteBytes rest

/-- Is a byte a UTF-8 continuation byte. -/
def isContByte (b : Nat) : Bool := 0x80 ≤ b ∧ b ≤ 0xBF

/-- UTF-8 decoding of a byte sequence (RFC 3629 ranges); `none` models the
`UnicodeDecodeError` Python raises on invalid UTF-8. -/
def utf8Decode : List Nat → Option (List Char)
  | [] => some []
  | b :: rest =>
    if b ≤ 0x7F then (utf8Decode rest).map (fun cs => Char.ofNat b :: cs)
    else if 0xC2 ≤ b ∧ b ≤ 0xDF then
      match rest with
      | c1 :: rest2 =>
        if isContByte c1 then
          (utf8Decode rest2).map (fun cs => Char.ofNat ((b - 0xC0) * 64 + (c1 - 0x80)) :: cs)
        else none
      | [] => none
    else if 0xE0 ≤ b ∧ b ≤ 0xEF then
      match rest with
      | c1 :: c2 :: rest2 =>
        let c1ok : Bool :=
          if b = 0xE0 then 0xA0 ≤ c1 ∧ c1 ≤ 0xBF
          else if b = 0xED then 0x80 ≤ c1 ∧ c1 ≤ 0x9F
          else isContByte c1
        if c1ok ∧ isContByte c2 then
          (utf8Decode rest2).map (fun cs =>
            Char.ofNat ((b - 0xE0) * 4096 + (c1 - 0x80) * 64 + (c2 - 0x80)) :: cs)
        else none
      | _ => none
    else if 0xF0 ≤ b ∧ b ≤ 0xF4 then
      match rest with
      | c1 :: c2 :: c3 :: rest2 =>
        let c1ok : Bool :=
          if b = 0xF0 then 0x90 ≤ c1 ∧ c1 ≤ 0xBF
          else if b = 0xF4 then 0x80 ≤ c1 ∧ c1 ≤ 0x8F
          else isContByte c1
        if c1ok ∧ isContByte c2 ∧ isContByte c3 then
          (utf8Decode rest2).map (fun cs =>
            Char.ofNat ((b - 0xF0) * 262144 + (c1 - 0x80) * 4096
                        + (c2 - 0x80) * 64 + (c3 - 0x80)) :: cs)
        else none
      | _ => none
    else none

/-- The path post-processing of `URIParser.parse` with
`decodeEscapedCharacters`: `urllib.unquote(path.encode("ascii")).decode("utf8")`.
The `encode("ascii")` step fails on any non-ASCII character, and the
`decode("utf8")` step fails on unquoted bytes that are not valid UTF-8;
both failures are `none`. -/
def pyEncDecPath (path : String) : Option String :=
  if path.data.all (fun c => c.toNat < 128) then
    (utf8Decode (pyUnquoteBytes path.data)).map (fun l => (⟨l⟩ : String))
  else none

/-- The configuration of a `URIParser` (constructor arguments plus the two
subclass hooks `_convertPortToInt` and `_getRE`). -/
structure URIParserCfg where
  addScheme : Bool
  defaultScheme : String
  addPort : Bool
  defaultPort : Option Nat
  spm : List (String × Option Nat)
  psm : List (Nat × String)
  decodeEscapedCharacters : Bool
  convertPortToInt : Bool
  srcExprNetloc : Bool

/-- Embedding of `URIParser()` with the default constructor arguments. -/
def stdURIParserCfg : URIParserCfg :=
  ⟨true, "http", false, some 80, defaultSchemePortMappings, defaultPortSchemeMappings,
   true, true, false⟩

/-- Embedding of `SourceExpressionURIParser()`: `addScheme=False`, `addPort=False`,
`decodeEscapedCharacters=True`, `_convertPortToInt=False`, wildcard netloc
grammar. -/
def srcExprURIParserCfg : URIParserCfg :=
  ⟨false, "http", false, some 80, defaultSchemePortMappings, defaultPortSchemeMappings,
   true, false, true⟩

/-- Embedding of `URIParser.parse(uriString)`; `none` models a raised exception. -/
def uriParserParse (cfg : URIParserCfg) (uriString0 : String) : Option URI :=
  let s := pyStrip uriString0
  if s = "" ∨ pyLower s = "null" then some URI.EMPTY
  else if (List.lookup (pyLower s) cfg.spm).isSome then
    some (mkURI (some (pyLower s)) (some "") none none none)
  else if pyEndsWith s ":" = true ∧ (List.lookup (pyLower (pyDropLast s 1)) cfg.spm).isSome then
    some (mkURI (some (pyLower (pyDropLast s 1))) (some "") none none none)
  else if pyEndsWith s "://" = true ∧ (List.lookup (pyLower (pyDropLast s 3)) cfg.spm).isSome then
    some (mkURI (some (pyLower (pyDropLast s 3))) (some "") none none none)
  else
    match urlsplitModel s with
    | none => none
    | some (scheme1, netloc1, path1, query1) =>
      -- data scheme: use the data as host
      if scheme1 ∈ schemesWithNoDoubleSlash then
        some (mkURI (some scheme1) (some path1) none none none)
      else
        -- urlparse behaves strangely when no netloc came out: insert http:// and retry
        let step2 : Option (Option String × String × String × String) :=
          if netloc1 = "" then
            match urlsplitModel ("http://" ++ s) with
            | none => none
            | some (_, n2, p2, q2) => some (none, n2, p2, q2)
          else some (some scheme1, netloc1, path1, query1)
        match step2 with
        | none => none
        | some (schemeOpt, netloc, path, query) =>
          match (if cfg.srcExprNetloc then parseNetlocSrcExpr netloc
                 else parseNetlocStd netloc) with
          | none => some URI.INVALID
          | some (host0, portStr) =>
            let host := pyLower host0
            let port0 : Option PortVal := portStr.map (fun ps =>
              if cfg.convertPortToInt then .num (pyIntOfDigits ps)
              else if ps = "*" then .star else .numStr ps)
            let schemeOpt2 : Option String :=
              if cfg.addScheme ∧ schemeOpt = none then
                match port0 with
                | some (.num n) =>
                  match List.lookup n cfg.psm with
                  | some sch => some sch
                  | none => some cfg.defaultScheme
                | _ => some cfg.defaultScheme
              else schemeOpt
            let port1 : Option PortVal :=
              if cfg.addPort ∧ port0 = none then
                match schemeOpt2 with
                | some sch =>
                  match List.lookup sch cfg.spm with
                  | some v => v.map .num
                  | none => cfg.defaultPort.map .num
                | none => cfg.defaultPort.map .num
              else port0
            match (if cfg.decodeEscapedCharacters then pyEncDecPath path
                   else some path) with
            | none => none
            | some path2 => some (mkURI schemeOpt2 (some host) port1 (some path2) (some query))

/-! ### SourceExpressionParser (csp/sourceexpression.py) -/

/-- The `int(port)` conversion at the end of `SourceExpressionParser.parse`:
`'*'` and `None` are kept, any other port becomes an integer. -/
def convertSrcExprPort : Option PortVal → Option PortVal
  | some .star => some .star
  | none => none
  | some (.numStr d) => some (.num (pyIntOfDigits d))
  | some (.num n) => some (.num n)

/-- Embedding of `SourceExpressionParser.parse(sourceExpressionString)` with the given
known-scheme list; `none` models a raised exception from the sub-parser. -/
def sourceExpressionParserParse (knownSchemes : List String) (s0 : String) :
    Option SrcExpr :=
  let s := pyStrip s0
  if pyLower s = "'unsafe-eval'" then some SrcExpr.UNSAFE_EVAL
  else if pyLower s = "'unsafe-inline'" then some SrcExpr.UNSAFE_INLINE
  else if pyLower s = "'self'" then some SrcExpr.selfE
  else if s = "*" then some (mkURISourceExpression none (some "*") none none)
  else
    match uriParserParse srcExprURIParserCfg s with
    | none => none
    | some u =>
      if u = URI.EMPTY ∨ u = URI.INVALID then some SrcExpr.INVALID
      else
        match u.scheme with
        | some sch =>
          if pyLower sch ∉ knownSchemes then some SrcExpr.INVALID
          else some (mkURISourceExpression u.scheme u.host (convertSrcExprPort u.port) u.path)
        | none => some (mkURISourceExpression u.scheme u.host (convertSrcExprPort u.port) u.path)

/-! ### DirectiveParser (csp/directive.py) -/

/-- The configuration of a `DirectiveParser`. -/
structure DirectiveParserCfg where
  typeTranslations : List (String × String)
  allowedTypes : List String
  knownSchemes : List String
  strict : Bool

/-- Embedding of `DirectiveParser()` with defaults (strict). -/
def strictDirectiveParserCfg : DirectiveParserCfg :=
  ⟨directiveTypeTranslations, allowedDirectiveTypes, supportedSchemes, true⟩

/-- Embedding of `DirectiveParser(strict=False)`. -/
def lenientDirectiveParserCfg : DirectiveParserCfg :=
  ⟨directiveTypeTranslations, allowedDirectiveTypes, supportedSchemes, false⟩

/-- The token loop of `DirectiveParser.parse`: accumulate the whitelist set;
`some none` is the strict-mode bail-out to `Directive.INVALID()`, outer `none`
a raised exception. -/
def collectSourceTokens (cfg : DirectiveParserCfg) (dt : String) :
    List String → Finset SrcExpr → Option (Option (Finset SrcExpr))
  | [], acc => some (some acc)
  | tok :: rest, acc =>
    if pyLower tok = "'none'" then collectSourceTokens cfg dt rest acc
    else
      match sourceExpressionParserParse cfg.knownSchemes tok with
      | none => none
      | some e =>
        if e = SrcExpr.INVALID then
          if cfg.strict then some none else collectSourceTokens cfg dt rest acc
        else if e = SrcExpr.UNSAFE_EVAL ∧ dt ∉ ["script-src", "default-src"] then
          if cfg.strict then some none else collectSourceTokens cfg dt rest acc
        else if e = SrcExpr.UNSAFE_INLINE ∧ dt ∉ ["script-src", "style-src", "default-src"] then
          if cfg.strict then some none else collectSourceTokens cfg dt rest acc
        else collectSourceTokens cfg dt rest (insert e acc)

/-- Embedding of `DirectiveParser.parse(stringDirective)`; `none` models a raised
exception. -/
def directiveParserParse (cfg : DirectiveParserCfg) (s0 : String) : Option Directive :=
  let s := pyStrip s0
  if s = "inline style base restriction" then some Directive.INLINE_STYLE_BASE_RESTRICTION
  else if s = "inline script base restriction" then some Directive.INLINE_SCRIPT_BASE_RESTRICTION
  else if s = "eval script base restriction" then some Directive.EVAL_SCRIPT_BASE_RESTRICTION
  else
    let parts := pyPartition s ' '
    if parts.1 = s then some Directive.INVALID
    else
      let dt0 := pyLower (pyStrip parts.1)
      let dt := (List.lookup dt0 cfg.typeTranslations).getD dt0
      if dt = "" ∨ dt ∉ cfg.allowedTypes then some Directive.INVALID
      else
        let tokens := pySplitWS (pyStrip parts.2.2)
        if "'none'" ∈ tokens.map pyLower ∧ 1 < tokens.length ∧ cfg.strict = true then
          some Directive.INVALID
        else
          match collectSourceTokens cfg dt tokens ∅ with
          | none => none
          | some none => some Directive.INVALID
          | some (some wl) => some (mkDirective dt wl)

/-! ### Helper lemmas about the embedded operations -/

/-- A directive built by the constructor is regular, hence distinct from the
invalid singleton. -/
theorem mkDirective_ne_INVALID (t : String) (wl : Finset SrcExpr) :
    mkDirective t wl ≠ Directive.INVALID := by
  intro h
  have := congrArg Directive.isRegular h
  simp [mkDirective, Directive.INVALID] at this

/-- A regular directive is none of the three non-regular report sentinels,
so `getType` answers its own type field. -/
theorem getType_of_regular {d : Directive} (h : d.isRegular = true) :
    d.getType = d.dtype := by
  have h1 : d ≠ Directive.INLINE_STYLE_BASE_RESTRICTION := by
    intro he; rw [he] at h; simp [Directive.INLINE_STYLE_BASE_RESTRICTION] at h
  have h2 : d ≠ Directive.INLINE_SCRIPT_BASE_RESTRICTION := by
    intro he; rw [he] at h; simp [Directive.INLINE_SCRIPT_BASE_RESTRICTION] at h
  have h3 : d ≠ Directive.EVAL_SCRIPT_BASE_RESTRICTION := by
    intro he; rw [he] at h; simp [Directive.EVAL_SCRIPT_BASE_RESTRICTION] at h
  simp [Directive.getType, h1, h2, h3]

/-- Embedding of `getType` of a constructed directive is the type it was given. -/
theorem getType_mkDirective (t : String) (wl : Finset SrcExpr) :
    (mkDirective t wl).getType = t := by
  rw [getType_of_regular (by simp [mkDirective])]; rfl

/-- Combining a regular directive whose whitelist holds no invalid expression
with itself gives the directive back (`frozenset` union is idempotent and the
constructor's invalid-filter is a no-op). -/
theorem combinedDirective_self {d : Directive} (hr : d.isRegular = true)
    (hw : SrcExpr.INVALID ∉ d.whitelist) : combinedDirective d d = d := by
  unfold combinedDirective
  rw [if_neg (by simp [hr]), if_neg (by simp)]
  rw [getType_of_regular hr]
  obtain ⟨t, wl, reg⟩ := d
  simp only at hr hw ⊢
  subst hr
  simp only [mkDirective, Finset.union_self, Directive.mk.injEq, and_true, true_and]
  exact Finset.filter_eq_self.mpr (fun e he hcontra => hw (hcontra ▸ he))

/-- Combining two regular directives of equal type never gives the invalid
directive. -/
theorem combinedDirective_ne_INVALID {d1 d2 : Directive} (h1 : d1.isRegular = true)
    (h2 : d2.isRegular = true) (ht : d1.getType = d2.getType) :
    combinedDirective d1 d2 ≠ Directive.INVALID := by
  unfold combinedDirective
  rw [if_neg (by simp [h1, h2]), if_neg (by simp [ht])]
  exact mkDirective_ne_INVALID _ _

/-- The implicit `default-src *` directive matches exactly the regular URIs:
every regular URI is matched (by the bare `*` source expression), and no
sentinel URI (Inline, Eval, Empty, Invalid) is. -/
theorem defaultSrcDirective_matches_iff_regular (res prot : URI)
    (m : List (String × Option Nat)) :
    directiveMatches defaultSrcDirectiveIfNotSpecified res prot m = res.isRegular := by
  have hexp : defaultSrcDirectiveIfNotSpecified
      = ⟨"default-src", {SrcExpr.uriE none (some "*") none none}, true⟩ := by decide
  rw [hexp]
  unfold directiveMatches
  rw [if_neg (by simp)]
  cases hreg : res.isRegular with
  | false =>
    rw [decide_eq_false_iff_not]
    rintro ⟨e, he, hm⟩
    simp only [Finset.mem_singleton] at he
    subst he
    simp [srcMatches, uriSourceMatches, hreg] at hm
  | true =>
    simp only [decide_eq_true_eq]
    refine ⟨SrcExpr.uriE none (some "*") none none, Finset.mem_singleton_self _, ?_⟩
    simp [srcMatches, uriSourceMatches, hreg]

/-! ### C4 — totality of URIParser.parse -/

/-- Claim C4 (code_bug evidence): `URIParser.parse` is *not* total.  On the
input `"http://host/%E4"` the path decoding step
`urllib.unquote(path.encode("ascii")).decode("utf8")` raises
`UnicodeDecodeError`, because the unquoted byte `0xE4` is not valid UTF-8;
in the embedding the raised exception is the `none` result. -/
theorem uri_parser_raises_on_invalid_utf8_escape :
    uriParserParse stdURIParserCfg "http://host/%E4" = none := by decide

/-! ### C5 — wildcard subdomain matching -/

/-- Claim C5: with a protected document URI that has scheme `http`, the source
expression `URISourceExpression("http", "*.seclab.nu", None, None)` matches
`Uri("http", "blog.seclab.nu", 80, "/x", None)` but does not match
`Uri("http", "iseclab.nu", 80, "/x", None)`: a `*.`-pattern requires the
resource host's trailing characters to equal the pattern after the `*`,
including the dot boundary. -/
theorem uri_source_expression_wildcard_subdomain :
    srcMatches (mkURISourceExpression (some "http") (some "*.seclab.nu") none none)
      (mkURI (some "http") (some "blog.seclab.nu") (some (.num 80)) (some "/x") none)
      (mkURI (some "http") (some "seclab.nu") (some (.num 80)) none none)
      defaultSchemePortMappings = true
    ∧ srcMatches (mkURISourceExpression (some "http") (some "*.seclab.nu") none none)
      (mkURI (some "http") (some "iseclab.nu") (some (.num 80)) (some "/x") none)
      (mkURI (some "http") (some "seclab.nu") (some (.num 80)) none none)
      defaultSchemePortMappings = false := by decide

/-! ### C7 — generateDirective for eval reports -/

/-- Claim C7: for a regular `script-src` directive, report type `"eval"` and
any blocked URI other than `Uri.Invalid`, `generateDirective` succeeds and
produces the `script-src` directive whose whitelist is exactly the singleton
`unsafe-eval` expression; in particular
`Directive("script-src", []).generateDirective("eval", Uri.Empty())`
equals `Directive("script-src", [UnsafeEval])`. -/
theorem generate_directive_eval_unsafe_eval (wl : Finset SrcExpr) (u : URI)
    (h : u ≠ URI.INVALID) :
    generateDirective (mkDirective "script-src" wl) "eval" u
      = mkDirective "script-src" {SrcExpr.UNSAFE_EVAL} := by
  have hreg : (mkDirective "script-src" wl).isRegular = true := rfl
  have hty : (mkDirective "script-src" wl).getType = "script-src" := getType_mkDirective _ _
  have hcond : ¬ (mkDirective "script-src" wl = Directive.INVALID
     ∨ (mkDirective "script-src" wl = Directive.EVAL_SCRIPT_BASE_RESTRICTION ∧ "eval" ≠ "eval")
     ∨ (mkDirective "script-src" wl = Directive.INLINE_SCRIPT_BASE_RESTRICTION ∧ "eval" ≠ "inline")
     ∨ (mkDirective "script-src" wl = Directive.INLINE_STYLE_BASE_RESTRICTION ∧ "eval" ≠ "inline")
     ∨ (mkDirective "script-src" wl).getType = "default-src"
     ∨ "eval" ∉ ["regular", "eval", "inline"]
     ∨ u = URI.INVALID
     ∨ ("eval" = "regular" ∧ ¬ u.isRegular = true)
     ∨ ("eval" = "eval" ∧ (mkDirective "script-src" wl).getType ≠ "script-src")
     ∨ ("eval" = "inline" ∧ (mkDirective "script-src" wl).getType ∉ ["script-src", "style-src"])) := by
    rintro (hh | hh | hh | hh | hh | hh | hh | hh | hh | hh)
    · exact mkDirective_ne_INVALID _ _ hh
    · exact hh.2 rfl
    · exact absurd (hh.1 ▸ hreg) (by decide)
    · exact absurd (hh.1 ▸ hreg) (by decide)
    · rw [hty] at hh; exact absurd hh (by decide)
    · exact hh (by decide)
    · exact h hh
    · exact absurd hh.1 (by decide)
    · exact hh.2 hty
    · exact absurd hh.1 (by decide)
  unfold generateDirective
  rw [if_neg hcond, if_neg (by decide), if_pos rfl, hty]

/-- Witness for C7 at the claim's concrete input. -/
theorem generate_directive_eval_unsafe_eval_witness :
    URI.EMPTY ≠ URI.INVALID
    ∧ generateDirective (mkDirective "script-src" ∅) "eval" URI.EMPTY
      = mkDirective "script-src" {SrcExpr.UNSAFE_EVAL} :=
  ⟨by decide, generate_directive_eval_unsafe_eval ∅ URI.EMPTY (by decide)⟩

/-! ### C8 — DirectiveParser strictness -/

/-- Claim C8: in strict mode, `DirectiveParser.parse("img-src http://url 'blah'")`
is `Directive.Invalid` because the token `'blah'` is not a parsable source
expression; in non-strict mode the same input yields the `img-src` directive
whose whitelist is exactly the URI source expression for `http://url`, the
invalid token being silently dropped. -/
theorem directive_parser_strictness_example :
    directiveParserParse strictDirectiveParserCfg "img-src http://url 'blah'"
      = some Directive.INVALID
    ∧ directiveParserParse lenientDirectiveParserCfg "img-src http://url 'blah'"
      = some (mkDirective "img-src"
          {mkURISourceExpression (some "http") (some "url") none none}) := by decide

/-! ### C9 — getType of the report sentinels feeds generateDirective -/

/-- Claim C9: `getType()` of the inline-style sentinel is `"style-src"` and of
the inline-script and eval-script sentinels is `"script-src"` (not the
sentinels' display names), which is exactly what lets `generateDirective`
accept these sentinels for the matching report type and emit a regular
directive of that type. -/
theorem sentinel_gettype_and_generate :
    Directive.INLINE_STYLE_BASE_RESTRICTION.getType = "style-src"
    ∧ Directive.INLINE_SCRIPT_BASE_RESTRICTION.getType = "script-src"
    ∧ Directive.EVAL_SCRIPT_BASE_RESTRICTION.getType = "script-src"
    ∧ generateDirective Directive.INLINE_STYLE_BASE_RESTRICTION "inline" URI.EMPTY
      = mkDirective "style-src" {SrcExpr.UNSAFE_INLINE}
    ∧ generateDirective Directive.INLINE_SCRIPT_BASE_RESTRICTION "inline" URI.EMPTY
      = mkDirective "script-src" {SrcExpr.UNSAFE_INLINE}
    ∧ generateDirective Directive.EVAL_SCRIPT_BASE_RESTRICTION "eval" URI.EMPTY
      = mkDirective "script-src" {SrcExpr.UNSAFE_EVAL} := by decide

/-! ### C10 — space-free inputs parse to Directive.Invalid -/

/-- Embedding of `breakAtChar` finds nothing when the character does not occur. -/
theorem breakAtChar_of_not_mem {c : Char} {l : List Char} (h : c ∉ l) :
    breakAtChar c l = none := by
  induction l with
  | nil => rfl
  | cons x xs ih =>
    simp only [List.mem_cons, not_or] at h
    rw [breakAtChar, if_neg (fun he => h.1 he.symm), ih h.2]
    rfl

/-- Claim C10: any input whose stripped form contains no space character is
parsed to `Directive.Invalid` by `DirectiveParser.parse` (for every parser
configuration) — the three sentinel phrases all contain spaces, and the
`partition(" ")` on a space-free string leaves the whole string in the first
component, which triggers the could-not-split bail-out.  In particular a bare
allowed directive type such as `"img-src"` is invalid; the empty-whitelist
(`'none'`) form requires a space after the type token. -/
theorem directive_parser_no_space_invalid (cfg : DirectiveParserCfg) (s : String)
    (h : ' ' ∉ (pyStrip s).data) :
    directiveParserParse cfg s = some Directive.INVALID := by
  have h1 : pyStrip s ≠ "inline style base restriction" := by
    intro he; rw [he] at h; exact h (by decide)
  have h2 : pyStrip s ≠ "inline script base restriction" := by
    intro he; rw [he] at h; exact h (by decide)
  have h3 : pyStrip s ≠ "eval script base restriction" := by
    intro he; rw [he] at h; exact h (by decide)
  have hpart : pyPartition (pyStrip s) ' ' = (pyStrip s, "", "") := by
    unfold pyPartition
    rw [breakAtChar_of_not_mem h]
  unfold directiveParserParse
  rw [if_neg h1, if_neg h2, if_neg h3]
  simp only [hpart]
  rw [if_pos trivial]

/-- Witness for C10 at the input `"img-src"`. -/
theorem directive_parser_no_space_invalid_witness :
    ' ' ∉ (pyStrip "img-src").data
    ∧ directiveParserParse strictDirectiveParserCfg "img-src" = some Directive.INVALID :=
  ⟨by decide, directive_parser_no_space_invalid strictDirectiveParserCfg "img-src" (by decide)⟩

/-! ### C2 — SelfSourceExpression.matches -/

/-- Modelled from the claim C2's words: `'self'` matches iff the resource URI
is regular, both URIs carry a scheme, both ports resolve (explicitly or via
the scheme→port table), and scheme, host and resolved port agree with the
scheme and host compared *ignoring letter case*. -/
def selfMatchesClaimCI (res prot : URI) (m : List (String × Option Nat)) : Bool :=
  decide (res.isRegular = true ∧ res.scheme ≠ none ∧ prot.scheme ≠ none
    ∧ selfResolvePort res m ≠ none ∧ selfResolvePort prot m ≠ none
    ∧ prot.scheme.map pyLower = res.scheme.map pyLower
    ∧ prot.host.map pyLower = res.host.map pyLower
    ∧ selfResolvePort prot m = selfResolvePort res m)

/-- The amended criterion: as `selfMatchesClaimCI` but with scheme and host
compared exactly (case-sensitively), which is what the source code does. -/
def selfMatchesClaimExact (res prot : URI) (m : List (String × Option Nat)) : Bool :=
  decide (res.isRegular = true ∧ res.scheme ≠ none ∧ prot.scheme ≠ none
    ∧ selfResolvePort res m ≠ none ∧ selfResolvePort prot m ≠ none
    ∧ prot.scheme = res.scheme
    ∧ prot.host = res.host
    ∧ selfResolvePort prot m = selfResolvePort res m)

/-- Counterexample to claim C2 as stated: with resource scheme `"HTTP"` and
protected-document scheme `"http"` (equal ignoring case, hosts and ports
equal), the claim's criterion holds but
`SelfSourceExpression.matches` returns False — the source compares schemes
and hosts case-sensitively. -/
theorem self_matches_case_insensitive_counterexample :
    selfMatchesClaimCI
      (mkURI (some "HTTP") (some "seclab.nu") (some (.num 80)) none none)
      (mkURI (some "http") (some "seclab.nu") (some (.num 80)) none none)
      defaultSchemePortMappings = true
    ∧ selfSourceMatches
      (mkURI (some "HTTP") (some "seclab.nu") (some (.num 80)) none none)
      (mkURI (some "http") (some "seclab.nu") (some (.num 80)) none none)
      defaultSchemePortMappings = false := by decide

/-- Claim C2 (amended): `SelfSourceExpression.matches` returns true exactly
when the resource URI is regular, both URIs have a scheme, both ports resolve,
and scheme, host and resolved port are equal — with scheme and host compared
case-sensitively (only the scheme→port lookup lower-cases); it returns false
whenever the resource is not regular or a scheme or resolved port is
missing. -/
theorem self_matches_characterisation (res prot : URI) (m : List (String × Option Nat)) :
    selfSourceMatches res prot m = selfMatchesClaimExact res prot m := by
  unfold selfSourceMatches selfMatchesClaimExact
  by_cases hr : res.isRegular = true
  · rcases hps : prot.scheme with _ | ps
    · simp [hps, hr]
    · rcases hrs : res.scheme with _ | rs
      · simp [hps, hrs, hr]
      · cases hpp : selfResolvePort prot m with
        | none => simp [hr, hps, hrs, hpp]
        | some mp =>
          cases hrp : selfResolvePort res m with
          | none => simp [hr, hps, hrs, hpp, hrp]
          | some op =>
            simp [hr, hps, hrs, hpp, hrp]
  · simp [hr]

/-! ### C3 — combinedPolicy with itself -/

/-- Counterexample to claim C3 as stated: the regular policy
`{default-src 'none'; img-src 'none'}` (a `default-src` directive alongside a
second directive type) combined with itself is `Policy.Invalid`, not itself —
the `default-src` special constraint in `combinedPolicy` rejects any operand
that holds `default-src` together with another directive. -/
theorem combined_policy_self_counterexample :
    (⟨{⟨"default-src", ∅, true⟩, ⟨"img-src", ∅, true⟩}, false⟩ : Policy).isInvalid = false
    ∧ combinedPolicy ⟨{⟨"default-src", ∅, true⟩, ⟨"img-src", ∅, true⟩}, false⟩
        ⟨{⟨"default-src", ∅, true⟩, ⟨"img-src", ∅, true⟩}, false⟩
      ≠ ⟨{⟨"default-src", ∅, true⟩, ⟨"img-src", ∅, true⟩}, false⟩ := by decide

/-- Claim C3 (amended): for every regular policy `p` (satisfying the
constructor invariants) in which a `default-src` directive, if present, is the
only directive, `p.combinedPolicy(p)` equals `p`.  (The amendment excludes
exactly the policies of the counterexample: `default-src` next to another
directive type, which the `default-src` constraint sends to `Invalid`.) -/
theorem combined_policy_idempotent (p : Policy) (hp : p.isInvalid = false)
    (hw : PolicyWF p)
    (hds : "default-src" ∈ p.directives.image Directive.getType → p.directives.card ≤ 1) :
    combinedPolicy p p = p := by
  obtain ⟨hreg, hinj, hwl⟩ := hw
  have hpne : ¬ (p = Policy.INVALID ∨ p = Policy.INVALID) := by
    rintro (he | he) <;> (rw [he] at hp; exact absurd hp (by decide))
  unfold combinedPolicy
  rw [if_neg hpne]
  simp only [Finset.union_self]
  rw [if_neg ?hc1]
  case hc1 =>
    rintro ⟨hmem, hviol⟩
    have hcard1 : (p.directives.image Directive.getType).card ≤ 1 :=
      le_trans (Finset.card_image_le) (hds hmem)
    rcases hviol with ⟨hno, _⟩ | ⟨_, hgt⟩ | ⟨hno, _⟩ | ⟨_, hgt⟩
    · exact hno hmem
    · omega
    · exact hno hmem
    · omega
  rw [if_neg ?hc2]
  case hc2 =>
    simp only [decide_eq_true_eq]
    rintro ⟨x, hx, hbad⟩
    rw [Finset.mem_filter, Finset.mem_product] at hx
    exact combinedDirective_ne_INVALID (hreg x.1 hx.1.1) (hreg x.2 hx.1.2) hx.2 hbad
  have hfilter0 :
      p.directives.filter (fun d => d.getType ∉ p.directives.image Directive.getType) = ∅ := by
    rw [Finset.filter_eq_empty_iff]
    intro d hd hcontra
    exact hcontra (Finset.mem_image_of_mem _ hd)
  have himage :
      ((p.directives ×ˢ p.directives).filter (fun x => x.1.getType = x.2.getType)).image
        (fun x => combinedDirective x.1 x.2) = p.directives := by
    apply Finset.ext
    intro a
    rw [Finset.mem_image]
    constructor
    · rintro ⟨x, hx, hcomb⟩
      rw [Finset.mem_filter, Finset.mem_product] at hx
      have hx12 : x.1 = x.2 := by
        apply hinj x.1 hx.1.1 x.2 hx.1.2
        rw [← getType_of_regular (hreg x.1 hx.1.1), ← getType_of_regular (hreg x.2 hx.1.2)]
        exact hx.2
      rw [← hcomb, ← hx12, combinedDirective_self (hreg x.1 hx.1.1) (hwl x.1 hx.1.1)]
      exact hx.1.1
    · intro ha
      refine ⟨(a, a), ?_, combinedDirective_self (hreg a ha) (hwl a ha)⟩
      rw [Finset.mem_filter, Finset.mem_product]
      exact ⟨⟨ha, ha⟩, rfl⟩
  rw [hfilter0, himage]
  simp only [Finset.empty_union]
  rw [Finset.filter_eq_self.mpr hreg]
  obtain ⟨pd, pi⟩ := p
  simp only at hp
  rw [hp]

/-- Witness for C3 at a concrete regular single-directive policy. -/
theorem combined_policy_idempotent_witness :
    ((⟨{⟨"img-src", ∅, true⟩}, false⟩ : Policy).isInvalid = false
     ∧ PolicyWF ⟨{⟨"img-src", ∅, true⟩}, false⟩
     ∧ ("default-src" ∈ (⟨{⟨"img-src", ∅, true⟩}, false⟩ : Policy).directives.image
          Directive.getType → (⟨{⟨"img-src", ∅, true⟩}, false⟩ : Policy).directives.card ≤ 1))
    ∧ combinedPolicy ⟨{⟨"img-src", ∅, true⟩}, false⟩ ⟨{⟨"img-src", ∅, true⟩}, false⟩
      = ⟨{⟨"img-src", ∅, true⟩}, false⟩ :=
  ⟨⟨by decide, by decide, by decide⟩,
   combined_policy_idempotent _ (by decide) (by decide) (by decide)⟩

/-! ### C6 — the default-src constraint of combinedPolicy -/

/-- The operand shape required by claim C6: zero directives, or exactly one
directive whose type is `default-src`. -/
def policyDefaultShape (s : Policy) : Prop :=
  s.directives.card = 0
  ∨ (s.directives.card = 1 ∧ ∀ d ∈ s.directives, d.getType = "default-src")

instance (s : Policy) : Decidable (policyDefaultShape s) := by
  unfold policyDefaultShape; infer_instance

/-- Under the constructor invariants, one side's half of the `default-src`
guard condition of `combinedPolicy` holds exactly when that side does not
have the shape of claim C6. -/
theorem default_guard_iff_not_shape (s : Policy) (hw : PolicyWF s) :
    ((("default-src" ∉ s.directives.image Directive.getType)
        ∧ 0 < (s.directives.image Directive.getType).card)
     ∨ (("default-src" ∈ s.directives.image Directive.getType)
        ∧ 1 < (s.directives.image Directive.getType).card))
    ↔ ¬ policyDefaultShape s := by
  obtain ⟨hreg, hinj, _⟩ := hw
  have hcard : (s.directives.image Directive.getType).card = s.directives.card := by
    apply Finset.card_image_of_injOn
    intro a ha b hb hab
    apply hinj a ha b hb
    rw [← getType_of_regular (hreg a ha), ← getType_of_regular (hreg b hb)]
    exact hab
  unfold policyDefaultShape
  rw [hcard]
  constructor
  · rintro (⟨hnot, hpos⟩ | ⟨hin, hgt⟩)
    · rintro (hzero | ⟨hone, hall⟩)
      · omega
      · obtain ⟨d0, hd0⟩ := Finset.card_eq_one.mp hone
        apply hnot
        rw [hd0]
        rw [Finset.image_singleton, Finset.mem_singleton]
        exact (hall d0 (by rw [hd0]; exact Finset.mem_singleton_self _)).symm
    · rintro (hzero | ⟨hone, _⟩) <;> omega
  · intro hns
    by_cases hin : "default-src" ∈ s.directives.image Directive.getType
    · right
      refine ⟨hin, ?_⟩
      by_contra hle
      push_neg at hle
      have h01 : s.directives.card = 0 ∨ s.directives.card = 1 := by omega
      rcases h01 with h0 | h1
      · exact hns (Or.inl h0)
      · apply hns
        right
        refine ⟨h1, ?_⟩
        obtain ⟨d0, hd0⟩ := Finset.card_eq_one.mp h1
        obtain ⟨d, hd, hdt⟩ := Finset.mem_image.mp hin
        intro d' hd'
        rw [hd0, Finset.mem_singleton] at hd hd'
        rw [hd', ← hd, hdt]
    · left
      refine ⟨hin, ?_⟩
      rcases Nat.eq_zero_or_pos s.directives.card with h0 | hpos
      · exact absurd (Or.inl h0) hns
      · exact hpos

/-- Claim C6: for non-Invalid operands (satisfying the constructor
invariants) whose union of directive types contains `default-src`, the
combination is `Policy.Invalid` exactly when some operand does not have the
shape "zero directives, or exactly one directive of type default-src"; when
both operands have that shape the combination is not rejected. -/
theorem combined_policy_default_src_constraint (p q : Policy)
    (hp : p.isInvalid = false) (hq : q.isInvalid = false)
    (hwp : PolicyWF p) (hwq : PolicyWF q)
    (hdef : "default-src" ∈
      p.directives.image Directive.getType ∪ q.directives.image Directive.getType) :
    combinedPolicy p q = Policy.INVALID
      ↔ ¬ (policyDefaultShape p ∧ policyDefaultShape q) := by
  have hpne : ¬ (p = Policy.INVALID ∨ q = Policy.INVALID) := by
    rintro (he | he)
    · rw [he] at hp; exact absurd hp (by decide)
    · rw [he] at hq; exact absurd hq (by decide)
  have hnoinv : ¬ (decide (∃ x ∈ (p.directives ×ˢ q.directives).filter
      (fun x : Directive × Directive => x.1.getType = x.2.getType),
      combinedDirective x.1 x.2 = Directive.INVALID) = true) := by
    simp only [decide_eq_true_eq]
    rintro ⟨x, hx, hbad⟩
    rw [Finset.mem_filter, Finset.mem_product] at hx
    exact combinedDirective_ne_INVALID (hwp.1 x.1 hx.1.1) (hwq.1 x.2 hx.1.2) hx.2 hbad
  unfold combinedPolicy
  rw [if_neg hpne]
  simp only []
  constructor
  · intro heq
    by_cases hcond : "default-src" ∈
        (p.directives.image Directive.getType ∪ q.directives.image Directive.getType)
        ∧ ((("default-src" ∉ p.directives.image Directive.getType)
             ∧ 0 < (p.directives.image Directive.getType).card)
           ∨ (("default-src" ∈ p.directives.image Directive.getType)
             ∧ 1 < (p.directives.image Directive.getType).card)
           ∨ (("default-src" ∉ q.directives.image Directive.getType)
             ∧ 0 < (q.directives.image Directive.getType).card)
           ∨ (("default-src" ∈ q.directives.image Directive.getType)
             ∧ 1 < (q.directives.image Directive.getType).card))
    · rw [not_and_or]
      rcases hcond.2 with hv | hv | hv | hv
      · exact Or.inl ((default_guard_iff_not_shape p hwp).mp (Or.inl hv))
      · exact Or.inl ((default_guard_iff_not_shape p hwp).mp (Or.inr hv))
      · exact Or.inr ((default_guard_iff_not_shape q hwq).mp (Or.inl hv))
      · exact Or.inr ((default_guard_iff_not_shape q hwq).mp (Or.inr hv))
    · rw [if_neg hcond, if_neg hnoinv] at heq
      have := congrArg Policy.isInvalid heq
      simp [Policy.INVALID] at this
  · intro hns
    rw [if_pos]
    refine ⟨hdef, ?_⟩
    rw [not_and_or] at hns
    rcases hns with hns | hns
    · rcases (default_guard_iff_not_shape p hwp).mpr hns with hv | hv
      · exact Or.inl hv
      · exact Or.inr (Or.inl hv)
    · rcases (default_guard_iff_not_shape q hwq).mpr hns with hv | hv
      · exact Or.inr (Or.inr (Or.inl hv))
      · exact Or.inr (Or.inr (Or.inr hv))

/-- Witness for C6: two single-`default-src` policies, whose combination the
constraint does not reject. -/
theorem combined_policy_default_src_constraint_witness :
    ((⟨{⟨"default-src", ∅, true⟩}, false⟩ : Policy).isInvalid = false
     ∧ (⟨{⟨"default-src", {SrcExpr.UNSAFE_INLINE}, true⟩}, false⟩ : Policy).isInvalid = false
     ∧ PolicyWF ⟨{⟨"default-src", ∅, true⟩}, false⟩
     ∧ PolicyWF ⟨{⟨"default-src", {SrcExpr.UNSAFE_INLINE}, true⟩}, false⟩
     ∧ "default-src" ∈
        (⟨{⟨"default-src", ∅, true⟩}, false⟩ : Policy).directives.image Directive.getType
        ∪ (⟨{⟨"default-src", {SrcExpr.UNSAFE_INLINE}, true⟩}, false⟩ : Policy).directives.image
            Directive.getType)
    ∧ (combinedPolicy ⟨{⟨"default-src", ∅, true⟩}, false⟩
         ⟨{⟨"default-src", {SrcExpr.UNSAFE_INLINE}, true⟩}, false⟩ = Policy.INVALID
       ↔ ¬ (policyDefaultShape ⟨{⟨"default-src", ∅, true⟩}, false⟩
            ∧ policyDefaultShape ⟨{⟨"default-src", {SrcExpr.UNSAFE_INLINE}, true⟩}, false⟩)) :=
  ⟨⟨by decide, by decide, by decide, by decide, by decide⟩,
   combined_policy_default_src_constraint _ _ (by decide) (by decide) (by decide) (by decide)
     (by decide)⟩

/-! ### C1 — Policy.matches case analysis -/

/-- Claim C1: `Policy.matches` on the Invalid policy is false on every input;
otherwise, if the policy contains a directive whose type equals the resource
type (case-insensitively — rendered here against the spec's data-model
invariant that directive types and the resource type are lower case), the
result is that directive's `matches` result with no `default-src` fallback;
otherwise, a resource type outside `defaultSrcTypes` never matches; otherwise
a present `default-src` directive decides; and with none present the implicit
`default-src *` directive decides, which matches exactly the regular URIs and
so neither the Inline nor the Eval sentinel. -/
theorem policy_matches_case_analysis (p : Policy) (res prot : URI)
    (resourceType : String) (m : List (String × Option Nat)) (dst : List String)
    (hlow : ∀ d ∈ p.directives, pyLower d.getType = d.getType)
    (hrt : pyLower resourceType = resourceType)
    (hinv : ∀ d1 ∈ p.directives, ∀ d2 ∈ p.directives, d1.getType = d2.getType → d1 = d2) :
    (p = Policy.INVALID → policyMatches p res resourceType prot m dst = false)
    ∧ (∀ d ∈ p.directives, p ≠ Policy.INVALID → pyLower d.getType = pyLower resourceType →
        policyMatches p res resourceType prot m dst = directiveMatches d res prot m)
    ∧ (p ≠ Policy.INVALID → (∀ d ∈ p.directives, d.getType ≠ resourceType) →
        resourceType ∉ dst →
        policyMatches p res resourceType prot m dst = false)
    ∧ (p ≠ Policy.INVALID → (∀ d ∈ p.directives, d.getType ≠ resourceType) →
        resourceType ∈ dst →
        ∀ d ∈ p.directives, d.getType = "default-src" →
        policyMatches p res resourceType prot m dst = directiveMatches d res prot m)
    ∧ (p ≠ Policy.INVALID → (∀ d ∈ p.directives, d.getType ≠ resourceType) →
        resourceType ∈ dst →
        (∀ d ∈ p.directives, d.getType ≠ "default-src") →
        policyMatches p res resourceType prot m dst
          = directiveMatches defaultSrcDirectiveIfNotSpecified res prot m
        ∧ directiveMatches defaultSrcDirectiveIfNotSpecified res prot m = res.isRegular) := by
  refine ⟨?_, ?_, ?_, ?_, ?_⟩
  · intro he
    unfold policyMatches
    rw [if_pos he]
  · intro d hd hne hty
    have hdty : d.getType = resourceType := by rw [← hlow d hd, hty, hrt]
    unfold policyMatches
    rw [if_neg hne]
    simp only [hrt]
    rw [if_pos (by simp only [decide_eq_true_eq]; exact ⟨d, hd, hdty⟩)]
    cases hm : directiveMatches d res prot m with
    | true =>
      simp only [decide_eq_true_eq]
      exact ⟨d, hd, hdty, hm⟩
    | false =>
      rw [decide_eq_false_iff_not]
      rintro ⟨d', hd', ht', hm'⟩
      rw [hinv d' hd' d hd (ht'.trans hdty.symm), hm] at hm'
      cases hm'
  · intro hne hno hnin
    unfold policyMatches
    rw [if_neg hne]
    simp only [hrt]
    rw [if_neg (by simp only [decide_eq_true_eq]; rintro ⟨d, hd, ht⟩; exact hno d hd ht)]
    rw [if_pos hnin]
  · intro hne hno hin d hd hdty
    unfold policyMatches
    rw [if_neg hne]
    simp only [hrt]
    rw [if_neg (by simp only [decide_eq_true_eq]; rintro ⟨d', hd', ht'⟩; exact hno d' hd' ht')]
    rw [if_neg (fun hc => hc hin)]
    rw [if_pos (by simp only [decide_eq_true_eq]; exact ⟨d, hd, hdty⟩)]
    cases hm : directiveMatches d res prot m with
    | true =>
      simp only [decide_eq_true_eq]
      exact ⟨d, hd, hdty, hm⟩
    | false =>
      rw [decide_eq_false_iff_not]
      rintro ⟨d', hd', ht', hm'⟩
      rw [hinv d' hd' d hd (ht'.trans hdty.symm), hm] at hm'
      cases hm'
  · intro hne hno hin hnodef
    refine ⟨?_, defaultSrcDirective_matches_iff_regular res prot m⟩
    unfold policyMatches
    rw [if_neg hne]
    simp only [hrt]
    rw [if_neg (by simp only [decide_eq_true_eq]; rintro ⟨d', hd', ht'⟩; exact hno d' hd' ht')]
    rw [if_neg (fun hc => hc hin)]
    rw [if_neg (by simp only [decide_eq_true_eq]; rintro ⟨d', hd', ht'⟩; exact hnodef d' hd' ht')]

/-- Witness for C1 at a concrete policy with a `script-src` directive, an
`img-src` resource type, and the default configuration tables. -/
theorem policy_matches_case_analysis_witness :
    ((∀ d ∈ (⟨{⟨"script-src", ∅, true⟩}, false⟩ : Policy).directives,
        pyLower d.getType = d.getType)
     ∧ pyLower "img-src" = "img-src"
     ∧ (∀ d1 ∈ (⟨{⟨"script-src", ∅, true⟩}, false⟩ : Policy).directives,
        ∀ d2 ∈ (⟨{⟨"script-src", ∅, true⟩}, false⟩ : Policy).directives,
          d1.getType = d2.getType → d1 = d2))
    ∧ ((⟨{⟨"script-src", ∅, true⟩}, false⟩ : Policy) ≠ Policy.INVALID →
        (∀ d ∈ (⟨{⟨"script-src", ∅, true⟩}, false⟩ : Policy).directives,
          d.getType ≠ "img-src") →
        "img-src" ∈ defaultSrcReplacementDirectiveTypes →
        (∀ d ∈ (⟨{⟨"script-src", ∅, true⟩}, false⟩ : Policy).directives,
          d.getType ≠ "default-src") →
        policyMatches ⟨{⟨"script-src", ∅, true⟩}, false⟩ URI.EVAL "img-src"
            (mkURI (some "http") (some "seclab.nu") (some (.num 80)) none none)
            defaultSchemePortMappings defaultSrcReplacementDirectiveTypes
          = directiveMatches defaultSrcDirectiveIfNotSpecified URI.EVAL
              (mkURI (some "http") (some "seclab.nu") (some (.num 80)) none none)
              defaultSchemePortMappings
        ∧ directiveMatches defaultSrcDirectiveIfNotSpecified URI.EVAL
            (mkURI (some "http") (some "seclab.nu") (some (.num 80)) none none)
            defaultSchemePortMappings = URI.EVAL.isRegular) :=
  ⟨⟨by decide, by decide, by decide⟩,
   (policy_matches_case_analysis ⟨{⟨"script-src", ∅, true⟩}, false⟩ URI.EVAL
      (mkURI (some "http") (some "seclab.nu") (some (.num 80)) none none)
      "img-src" defaultSchemePortMappings defaultSrcReplacementDirectiveTypes
      (by decide) (by decide) (by decide)).2.2.2.2⟩

end CspUtils
